import Mathlib

/-!
Verification of the MeasureIt meter module
(`custom_components/measureit/meter.py`).

We shallowly embed the three meter classes (`CounterMeter`, `SourceMeter`,
`TimeMeter`) as Lean state-transition functions.  Python `Decimal` values
are modelled as `ℚ` (every operation used by the code is `+`/`-`, which is
exact on decimals, hence faithfully represented by rationals); values that
may be the Python `None` are modelled as `Option ℚ`.

Python methods mutate the object in place and may raise (`TypeError` on
arithmetic with `None`, `Decimal(None)` in `from_dict`).  A method that can
raise is modelled as returning a `CallResult`: `ok = true` means the call
returned normally, `ok = false` means it raised; `state` is the object's
field contents at the moment the call returned or raised (the fields
assigned before the raising statement keep their new values, exactly as in
Python).  `TimeMeter.get_timestamp` reads a clock; we model the clock as an
explicit `now : ℚ` argument to every method that calls it.
-/

/-- Outcome of a Python method call on a meter object: `ok = false` means the
call raised an exception; `state` is the object's state when the call
returned or raised. -/
structure CallResult (σ : Type) where
  ok : Bool
  state : σ
  deriving Repr, DecidableEq

/-! ### CounterMeter -/

/-- Fields of a `CounterMeter` object (exactly the fields of the Python
base class `MeasureItMeter`; `CounterMeter` adds none). -/
structure CounterState where
  measured_value : ℚ
  prev_measured_value : ℚ
  measuring : Bool
  deriving Repr, DecidableEq

/-- `MeasureItMeter.__init__` as inherited by `CounterMeter`. -/
def counterInit : CounterState :=
  { measured_value := 0, prev_measured_value := 0, measuring := false }

/-- `CounterMeter.start`: `self._measuring = True`. -/
def counterStart (s : CounterState) : CounterState :=
  { s with measuring := true }

/-- `CounterMeter.stop`: `self._measuring = False`. -/
def counterStop (s : CounterState) : CounterState :=
  { s with measuring := false }

/-- `CounterMeter.update(value)`: `if self._measuring: self._measured_value += value`.
When `value` is `None` and the meter is measuring, `Decimal + None` raises a
`TypeError` before any field is assigned. -/
def counterUpdate (s : CounterState) (value : Option ℚ) : CallResult CounterState :=
  if s.measuring then
    match value with
    | some v => ⟨true, { s with measured_value := s.measured_value + v }⟩
    | none => ⟨false, s⟩
  else ⟨true, s⟩

/-- `CounterMeter.reset`: simultaneous assignment
`self._prev_measured_value, self._measured_value = self._measured_value, Decimal(0)`. -/
def counterReset (s : CounterState) : CounterState :=
  { s with prev_measured_value := s.measured_value, measured_value := 0 }

/-- The dictionary produced by `MeasureItMeter.to_dict`. -/
structure MeterDict where
  measured_value : ℚ
  prev_measured_value : ℚ
  measuring : Bool
  deriving Repr, DecidableEq

/-- `MeasureItMeter.to_dict` for a `CounterMeter`. -/
def counterToDict (s : CounterState) : MeterDict :=
  { measured_value := s.measured_value
    prev_measured_value := s.prev_measured_value
    measuring := s.measuring }

/-- `MeasureItMeter.from_dict` for a `CounterMeter`: restores the three base
fields from the dictionary. -/
def counterFromDict (s : CounterState) (d : MeterDict) : CounterState :=
  { s with measured_value := d.measured_value
           prev_measured_value := d.prev_measured_value
           measuring := d.measuring }

/-! ### SourceMeter -/

/-- Fields of a `SourceMeter` object.  `_source_value` is `Decimal | None`
(the constructor accepts `None` and `update` stores its argument, which may
be `None`).  `_session_start_value` is initialised to `Decimal(0)` but
`start` copies `_source_value` into it, so it may also hold `None`.
The attribute `_session_total` is written by `stop`/`update` but never read
across calls and never serialised, so it is omitted from the state. -/
structure SourceState where
  measured_value : ℚ
  prev_measured_value : ℚ
  measuring : Bool
  session_start_value : Option ℚ
  session_start_measured_value : ℚ
  source_value : Option ℚ
  deriving Repr, DecidableEq

/-- `SourceMeter.__init__(source_value)`. -/
def sourceInit (source_value : Option ℚ) : SourceState :=
  { measured_value := 0, prev_measured_value := 0, measuring := false
    session_start_value := some 0, session_start_measured_value := 0
    source_value := source_value }

/-- `SourceMeter.start`: set `measuring`, anchor the session at the current
source value and measured value (plain assignments, never raises). -/
def sourceStart (s : SourceState) : SourceState :=
  { s with measuring := true
           session_start_value := s.source_value
           session_start_measured_value := s.measured_value }

/-- `SourceMeter.stop`: clears `measuring`, then computes
`session_total = source_value - session_start_value` and folds it into
`measured_value`.  The subtraction raises `TypeError` when either operand is
`None`; at that point `measuring` has already been set to `False`. -/
def sourceStop (s : SourceState) : CallResult SourceState :=
  let s1 := { s with measuring := false }
  match s.source_value, s.session_start_value with
  | some sv, some ssv =>
      ⟨true, { s1 with
          measured_value := s.session_start_measured_value + (sv - ssv) }⟩
  | _, _ => ⟨false, s1⟩

/-- `SourceMeter.update(value)`: first `self._source_value = value`
(unconditionally), then, if measuring, recompute `measured_value`.  The
recomputation raises when `value` or `session_start_value` is `None`; the
`source_value` assignment has already happened at that point. -/
def sourceUpdate (s : SourceState) (value : Option ℚ) : CallResult SourceState :=
  let s1 := { s with source_value := value }
  if s.measuring then
    match value, s.session_start_value with
    | some v, some ssv =>
        ⟨true, { s1 with
            measured_value := s.session_start_measured_value + (v - ssv) }⟩
    | _, _ => ⟨false, s1⟩
  else ⟨true, s1⟩

/-- `SourceMeter.reset`: if measuring, `stop` (which may raise, propagating
out of `reset`), snapshot `prev_measured_value`, zero `measured_value`, then
`start` again; if idle, just snapshot-and-zero. -/
def sourceReset (s : SourceState) : CallResult SourceState :=
  if s.measuring then
    match sourceStop s with
    | ⟨true, s1⟩ =>
        let s2 := { s1 with prev_measured_value := s1.measured_value
                            measured_value := 0 }
        ⟨true, sourceStart s2⟩
    | ⟨false, s1⟩ => ⟨false, s1⟩
  else
    ⟨true, { s with prev_measured_value := s.measured_value
                    measured_value := 0 }⟩

/-- The dictionary produced by `SourceMeter.to_dict` (base fields plus the
session anchors and the source value; the latter two may be `None`). -/
structure SourceDict where
  measured_value : ℚ
  prev_measured_value : ℚ
  measuring : Bool
  session_start_value : Option ℚ
  session_start_measured_value : ℚ
  source_value : Option ℚ
  deriving Repr, DecidableEq

/-- `SourceMeter.to_dict`. -/
def sourceToDict (s : SourceState) : SourceDict :=
  { measured_value := s.measured_value
    prev_measured_value := s.prev_measured_value
    measuring := s.measuring
    session_start_value := s.session_start_value
    session_start_measured_value := s.session_start_measured_value
    source_value := s.source_value }

/-- Python truthiness of an optional `Decimal`: `None` and `Decimal(0)` are
falsy, every nonzero decimal is truthy.  This is the test performed by
`if self._source_value:` in `SourceMeter.from_dict`. -/
def decimalTruthy : Option ℚ → Bool
  | none => false
  | some q => decide (q ≠ 0)

/-- `SourceMeter.from_dict`: restore the three base fields, then the two
session anchors (`Decimal(data["session_start_value"])` raises when the
persisted value is `None`), then — if the object's current `_source_value`
is truthy — re-run `update` with it, otherwise take `source_value` from the
snapshot (`Decimal(data["source_value"])`, which raises on `None`). -/
def sourceFromDict (s : SourceState) (d : SourceDict) : CallResult SourceState :=
  let s1 := { s with measured_value := d.measured_value
                     prev_measured_value := d.prev_measured_value
                     measuring := d.measuring }
  match d.session_start_value with
  | none => ⟨false, s1⟩
  | some ssv =>
      let s2 := { s1 with session_start_value := some ssv
                          session_start_measured_value :=
                            d.session_start_measured_value }
      if decimalTruthy s2.source_value then
        sourceUpdate s2 s2.source_value
      else
        match d.source_value with
        | none => ⟨false, s2⟩
        | some sv => ⟨true, { s2 with source_value := some sv }⟩

/-! ### TimeMeter -/

/-- Fields of a `TimeMeter` object.  The session anchors always hold real
decimals (timestamps / measured values), never `None`.  As for
`SourceMeter`, the write-only attribute `_session_total` is omitted. -/
structure TimeState where
  measured_value : ℚ
  prev_measured_value : ℚ
  measuring : Bool
  session_start_value : ℚ
  session_start_measured_value : ℚ
  deriving Repr, DecidableEq

/-- `TimeMeter.__init__`. -/
def timeInit : TimeState :=
  { measured_value := 0, prev_measured_value := 0, measuring := false
    session_start_value := 0, session_start_measured_value := 0 }

/-- `TimeMeter.start` with the clock reading `now`. -/
def timeStart (s : TimeState) (now : ℚ) : TimeState :=
  { s with measuring := true
           session_start_value := now
           session_start_measured_value := s.measured_value }

/-- `TimeMeter.stop` with the clock reading `now`: clears `measuring` and
folds the elapsed session time into `measured_value` (unconditionally, even
when the meter was already idle). -/
def timeStop (s : TimeState) (now : ℚ) : TimeState :=
  { s with measuring := false
           measured_value :=
             s.session_start_measured_value + (now - s.session_start_value) }

/-- `TimeMeter.update` with the clock reading `now`: recomputes
`measured_value` only while measuring. -/
def timeUpdate (s : TimeState) (now : ℚ) : TimeState :=
  if s.measuring then
    { s with measured_value :=
        s.session_start_measured_value + (now - s.session_start_value) }
  else s

/-- `TimeMeter.reset` with the clock reading `now`, statement by statement:
`if self._measuring: self.stop()`, then snapshot `prev_measured_value`,
zero `measured_value`, then `if self._measuring: self.start()`.  Note that
`stop` has already set `_measuring` to `False`, so the final branch tests
the flag as left by `stop`. -/
def timeReset (s : TimeState) (now : ℚ) : TimeState :=
  let s1 := if s.measuring then timeStop s now else s
  let s2 := { s1 with prev_measured_value := s1.measured_value
                      measured_value := 0 }
  if s2.measuring then timeStart s2 now else s2

/-- The dictionary produced by `TimeMeter.to_dict`. -/
structure TimeDict where
  measured_value : ℚ
  prev_measured_value : ℚ
  measuring : Bool
  session_start_value : ℚ
  session_start_measured_value : ℚ
  deriving Repr, DecidableEq

/-- `TimeMeter.to_dict`. -/
def timeToDict (s : TimeState) : TimeDict :=
  { measured_value := s.measured_value
    prev_measured_value := s.prev_measured_value
    measuring := s.measuring
    session_start_value := s.session_start_value
    session_start_measured_value := s.session_start_measured_value }

/-- `TimeMeter.from_dict`: restores the base fields and the session
anchors (all present and non-`None` in a `TimeMeter` snapshot). -/
def timeFromDict (s : TimeState) (d : TimeDict) : TimeState :=
  { s with measured_value := d.measured_value
           prev_measured_value := d.prev_measured_value
           measuring := d.measuring
           session_start_value := d.session_start_value
           session_start_measured_value := d.session_start_measured_value }

/-! ### Call sequences (for the frame property on `prev_measured_value`) -/

/-- A `start`/`stop`/`update` call on a `CounterMeter`. -/
inductive CounterOp where
  | start : CounterOp
  | stop : CounterOp
  | update : Option ℚ → CounterOp
  deriving Repr, DecidableEq

/-- Effect of one `CounterMeter` call on the object state (for a raising
`update` this is the state the object holds when the exception leaves the
call, which for `CounterMeter` is the unchanged state). -/
def counterStep (s : CounterState) : CounterOp → CounterState
  | .start => counterStart s
  | .stop => counterStop s
  | .update v => (counterUpdate s v).state

/-- Object state after a sequence of `CounterMeter` calls. -/
def counterRun (s : CounterState) : List CounterOp → CounterState
  | [] => s
  | op :: ops => counterRun (counterStep s op) ops

/-- A `start`/`stop`/`update` call on a `SourceMeter`. -/
inductive SourceOp where
  | start : SourceOp
  | stop : SourceOp
  | update : Option ℚ → SourceOp
  deriving Repr, DecidableEq

/-- Effect of one `SourceMeter` call on the object state (raise-time state
for a raising call). -/
def sourceStep (s : SourceState) : SourceOp → SourceState
  | .start => sourceStart s
  | .stop => (sourceStop s).state
  | .update v => (sourceUpdate s v).state

/-- Object state after a sequence of `SourceMeter` calls. -/
def sourceRun (s : SourceState) : List SourceOp → SourceState
  | [] => s
  | op :: ops => sourceRun (sourceStep s op) ops

/-- A `start`/`stop`/`update` call on a `TimeMeter`, carrying the clock
reading at the moment of the call. -/
inductive TimeOp where
  | start : ℚ → TimeOp
  | stop : ℚ → TimeOp
  | update : ℚ → TimeOp
  deriving Repr, DecidableEq

/-- Effect of one `TimeMeter` call on the object state. -/
def timeStep (s : TimeState) : TimeOp → TimeState
  | .start now => timeStart s now
  | .stop now => timeStop s now
  | .update now => timeUpdate s now

/-- Object state after a sequence of `TimeMeter` calls. -/
def timeRun (s : TimeState) : List TimeOp → TimeState
  | [] => s
  | op :: ops => timeRun (timeStep s op) ops

/-! ### The delta-continuity scenario (spec acceptance example) -/

/-- State of `SourceMeter(Decimal(100))` after `start()` then `update(110)`. -/
def deltaAfterFirstUpdate : SourceState :=
  (sourceUpdate (sourceStart (sourceInit (some 100))) (some 110)).state

/-- State after additionally calling `stop()` then `update(150)` while idle. -/
def deltaAfterIdleUpdate : SourceState :=
  (sourceUpdate (sourceStop deltaAfterFirstUpdate).state (some 150)).state

/-- State after additionally calling `start()` then `update(170)`. -/
def deltaAfterSecondSession : SourceState :=
  (sourceUpdate (sourceStart deltaAfterIdleUpdate) (some 170)).state

/-! ### Theorems -/

/-- C1: the claim says that a measuring `TimeMeter`, after `start()` at
t=0 and `update()` at t=10 (giving `measured_value == 10`), responds to
`reset()` with `prev_measured_value == 10`, `measured_value == 0`, is
*still measuring*, and a later `update()` at t=15 yields
`measured_value == 5`.  The code instead leaves the meter idle after
`reset` — `stop()` clears `_measuring` before `reset`'s final
`if self._measuring: self.start()` line, so that restart is unreachable —
and the `update()` at t=15 is therefore a no-op, leaving
`measured_value == 0`.  This theorem evaluates the code on the scenario. -/
theorem timeMeter_reset_scenario_eval :
    (timeUpdate (timeStart timeInit 0) 10).measured_value = 10 ∧
    (timeReset (timeUpdate (timeStart timeInit 0) 10) 10).prev_measured_value = 10 ∧
    (timeReset (timeUpdate (timeStart timeInit 0) 10) 10).measured_value = 0 ∧
    (timeReset (timeUpdate (timeStart timeInit 0) 10) 10).measuring = false ∧
    (timeUpdate (timeReset (timeUpdate (timeStart timeInit 0) 10) 10) 15).measured_value = 0 := by
  norm_num [timeInit, timeStart, timeStop, timeUpdate, timeReset]

/-- C2: the claim says `reset()` preserves the `measuring` flag for every
meter variant.  For `TimeMeter` it does not: a meter that is measuring
(here started at t=0) is idle after `reset()` at t=5, because `stop()`
clears the flag before the restart check.  This theorem evaluates the
code on that failing input. -/
theorem timeMeter_reset_measuring_eval :
    (timeStart timeInit 0).measuring = true ∧
    (timeReset (timeStart timeInit 0) 5).measuring = false := by
  decide

/-- C3 counterexample: calling `stop()` on an idle meter is claimed to
leave `measured_value` unchanged.  A fresh `SourceMeter` constructed with
reading 100 is idle with `measured_value == 0`, yet `stop()` recomputes
`measured_value = session_start_measured_value + (source_value -
session_start_value) = 0 + (100 - 0) = 100`. -/
theorem sourceMeter_idle_stop_counterexample :
    (sourceInit (some 100)).measuring = false ∧
    (sourceInit (some 100)).measured_value = 0 ∧
    (sourceStop (sourceInit (some 100))).state.measured_value = 100 := by
  norm_num [sourceInit, sourceStop]

/-- C3 amended: `stop()` leaves `prev_measured_value` unchanged for every
variant; it leaves `measured_value` unchanged for an idle `CounterMeter`,
but for `SourceMeter` and `TimeMeter` it always (idle or not) recomputes
`measured_value` from the stored session anchors and the current source
value / clock reading. -/
theorem stop_effects :
    (∀ c : CounterState, c.measuring = false →
        (counterStop c).measured_value = c.measured_value ∧
        (counterStop c).prev_measured_value = c.prev_measured_value) ∧
    (∀ s : SourceState,
        (sourceStop s).state.prev_measured_value = s.prev_measured_value ∧
        ∀ sv ssv, s.source_value = some sv → s.session_start_value = some ssv →
          (sourceStop s).state.measured_value =
            s.session_start_measured_value + (sv - ssv)) ∧
    (∀ (t : TimeState) (now : ℚ),
        (timeStop t now).prev_measured_value = t.prev_measured_value ∧
        (timeStop t now).measured_value =
          t.session_start_measured_value + (now - t.session_start_value)) := by
  refine ⟨fun c _ => ⟨rfl, rfl⟩, fun s => ⟨?_, ?_⟩, fun t now => ⟨rfl, rfl⟩⟩
  · cases h1 : s.source_value <;> cases h2 : s.session_start_value <;>
      simp [sourceStop, h1, h2]
  · intro sv ssv h1 h2
    simp [sourceStop, h1, h2]

/-- Witness for `stop_effects` at concrete states. -/
theorem stop_effects_witness :
    ((counterStop ⟨5, 2, false⟩).measured_value = 5 ∧
      (counterStop ⟨5, 2, false⟩).prev_measured_value = 2) ∧
    ((sourceStop ⟨5, 2, true, some 3, 4, some 9⟩).state.prev_measured_value = 2 ∧
      (sourceStop ⟨5, 2, true, some 3, 4, some 9⟩).state.measured_value = 4 + (9 - 3)) ∧
    ((timeStop ⟨5, 2, true, 3, 4⟩ 10).prev_measured_value = 2 ∧
      (timeStop ⟨5, 2, true, 3, 4⟩ 10).measured_value = 4 + (10 - 3)) := by
  refine ⟨stop_effects.1 ⟨5, 2, false⟩ rfl, ⟨(stop_effects.2.1 _).1, ?_⟩,
    (stop_effects.2.2 ⟨5, 2, true, 3, 4⟩ 10).1, (stop_effects.2.2 ⟨5, 2, true, 3, 4⟩ 10).2⟩
  exact (stop_effects.2.1 ⟨5, 2, true, some 3, 4, some 9⟩).2 9 3 rfl rfl

/-- C4 counterexample: the claim says a `SourceMeter` constructed with any
known live reading — including 0 — re-runs `update` with that reading during
restore.  The code tests `if self._source_value:`, and `Decimal(0)` is falsy
in Python, so a meter constructed with live reading 0 takes the else branch
and adopts the snapshot's `source_value` (here 50) instead of re-running
`update(0)` (which would leave `source_value == 0`). -/
theorem sourceMeter_restore_zero_reading_counterexample :
    (sourceFromDict (sourceInit (some 0))
        ⟨7, 3, false, some 2, 1, some 50⟩).state.source_value = some 50 ∧
    (sourceFromDict (sourceInit (some 0))
        ⟨7, 3, false, some 2, 1, some 50⟩).state.source_value ≠ some 0 := by
  norm_num [sourceFromDict, sourceInit, sourceUpdate, decimalTruthy]

/-- C4 amended: restoring a `SourceMeter` constructed with a *nonzero* live
reading `r` restores the base and session fields from the snapshot and then
re-runs `update` with `r`; restoring a meter constructed with no live
reading, or — per the counterexample, since `Decimal(0)` is falsy — with a
*zero* live reading, takes `source_value` from the persisted snapshot.  The
session-anchor hypothesis `d.session_start_value = some ssv` records that
the persisted anchor is a real decimal (a `None` anchor makes
`Decimal(data[...])` raise first), and `d.source_value = some sv` that the
persisted source value is one (a `None` one makes the fallback raise). -/
theorem sourceMeter_restore_policy :
    (∀ (d : SourceDict) (r ssv : ℚ), r ≠ 0 → d.session_start_value = some ssv →
        sourceFromDict (sourceInit (some r)) d =
          sourceUpdate
            { measured_value := d.measured_value
              prev_measured_value := d.prev_measured_value
              measuring := d.measuring
              session_start_value := some ssv
              session_start_measured_value := d.session_start_measured_value
              source_value := some r } (some r)) ∧
    (∀ (d : SourceDict) (ssv sv : ℚ), d.session_start_value = some ssv →
        d.source_value = some sv →
        (sourceFromDict (sourceInit none) d).ok = true ∧
        (sourceFromDict (sourceInit none) d).state =
          { measured_value := d.measured_value
            prev_measured_value := d.prev_measured_value
            measuring := d.measuring
            session_start_value := some ssv
            session_start_measured_value := d.session_start_measured_value
            source_value := some sv }) ∧
    (∀ (d : SourceDict) (ssv sv : ℚ), d.session_start_value = some ssv →
        d.source_value = some sv →
        (sourceFromDict (sourceInit (some 0)) d).ok = true ∧
        (sourceFromDict (sourceInit (some 0)) d).state =
          { measured_value := d.measured_value
            prev_measured_value := d.prev_measured_value
            measuring := d.measuring
            session_start_value := some ssv
            session_start_measured_value := d.session_start_measured_value
            source_value := some sv }) := by
  refine ⟨?_, ?_, ?_⟩
  · intro d r ssv hr hssv
    simp [sourceFromDict, sourceInit, decimalTruthy, hssv, hr]
  · intro d ssv sv hssv hsv
    simp [sourceFromDict, sourceInit, decimalTruthy, hssv, hsv]
  · intro d ssv sv hssv hsv
    simp [sourceFromDict, sourceInit, decimalTruthy, hssv, hsv]

/-- Witness for `sourceMeter_restore_policy` at concrete snapshots,
exercising all three cases: a nonzero live reading, no live reading, and a
zero live reading. -/
theorem sourceMeter_restore_policy_witness :
    (sourceFromDict (sourceInit (some 5)) ⟨7, 3, true, some 2, 1, some 50⟩ =
      sourceUpdate ⟨7, 3, true, some 2, 1, some 5⟩ (some 5)) ∧
    ((sourceFromDict (sourceInit none) ⟨7, 3, false, some 2, 1, some 50⟩).ok = true ∧
      (sourceFromDict (sourceInit none) ⟨7, 3, false, some 2, 1, some 50⟩).state =
        ⟨7, 3, false, some 2, 1, some 50⟩) ∧
    ((sourceFromDict (sourceInit (some 0)) ⟨7, 3, false, some 2, 1, some 50⟩).ok = true ∧
      (sourceFromDict (sourceInit (some 0)) ⟨7, 3, false, some 2, 1, some 50⟩).state =
        ⟨7, 3, false, some 2, 1, some 50⟩) := by
  exact ⟨sourceMeter_restore_policy.1 ⟨7, 3, true, some 2, 1, some 50⟩ 5 2
      (by norm_num) rfl,
    sourceMeter_restore_policy.2.1 ⟨7, 3, false, some 2, 1, some 50⟩ 2 50 rfl rfl,
    sourceMeter_restore_policy.2.2 ⟨7, 3, false, some 2, 1, some 50⟩ 2 50 rfl rfl⟩

/-- C5: `restore(serialize(m))` reproduces `m` observably.  For
`CounterMeter` and `TimeMeter` the restored state is equal to `m` outright;
for a `SourceMeter` restored into a meter constructed with no live reading,
the state after `from_dict(to_dict(m))` agrees with `m` on
`measured_value`, `prev_measured_value` and `measuring` (these three base
fields are restored before the `source_value` branch runs, so the equality
holds for every `m`, even one whose persisted optional fields are `None`). -/
theorem meter_roundtrip :
    (∀ c : CounterState, counterFromDict counterInit (counterToDict c) = c) ∧
    (∀ t : TimeState, timeFromDict timeInit (timeToDict t) = t) ∧
    (∀ s : SourceState,
        (sourceFromDict (sourceInit none) (sourceToDict s)).state.measured_value =
          s.measured_value ∧
        (sourceFromDict (sourceInit none) (sourceToDict s)).state.prev_measured_value =
          s.prev_measured_value ∧
        (sourceFromDict (sourceInit none) (sourceToDict s)).state.measuring =
          s.measuring) := by
  refine ⟨fun c => rfl, fun t => rfl, fun s => ?_⟩
  cases h1 : s.session_start_value <;> cases h2 : s.source_value <;>
    simp [sourceFromDict, sourceToDict, sourceInit, decimalTruthy, h1, h2]

/-- C6 counterexample: the claim says `prev_measured_value` after `reset()`
equals the `measured_value` the meter reported immediately before the call.
A `TimeMeter` started at t=0 still reports `measured_value == 0` (no
`update` has run), but `reset()` at t=10 first folds the open session via
`stop()`, so `prev_measured_value` becomes 10, not 0. -/
theorem timeMeter_reset_conservation_counterexample :
    (timeStart timeInit 0).measured_value = 0 ∧
    (timeReset (timeStart timeInit 0) 10).prev_measured_value = 10 ∧
    (timeReset (timeStart timeInit 0) 10).prev_measured_value ≠
      (timeStart timeInit 0).measured_value := by
  norm_num [timeInit, timeStart, timeStop, timeReset]

/-- C6 amended: after `reset()`, `measured_value == 0` and
`prev_measured_value` captures the pre-reset value as follows: for
`CounterMeter` always the previously reported `measured_value`; for
`SourceMeter` the previously reported `measured_value`, whenever the meter
is idle, or is measuring with its source and session-start values present
and `measured_value` in sync with them (as after any `start`/`update`);
for `TimeMeter` the session-folded value
`session_start_measured_value + (now - session_start_value)` when
measuring (which exceeds the last reported value by the time elapsed since
the last tick) and the reported `measured_value` when idle. -/
theorem reset_conservation :
    (∀ c : CounterState,
        (counterReset c).prev_measured_value = c.measured_value ∧
        (counterReset c).measured_value = 0) ∧
    (∀ s : SourceState,
        (s.measuring = false →
          (sourceReset s).ok = true ∧
          (sourceReset s).state.prev_measured_value = s.measured_value ∧
          (sourceReset s).state.measured_value = 0) ∧
        (∀ sv ssv, s.measuring = true → s.source_value = some sv →
          s.session_start_value = some ssv →
          s.measured_value = s.session_start_measured_value + (sv - ssv) →
          (sourceReset s).ok = true ∧
          (sourceReset s).state.prev_measured_value = s.measured_value ∧
          (sourceReset s).state.measured_value = 0)) ∧
    (∀ (t : TimeState) (now : ℚ),
        (timeReset t now).measured_value = 0 ∧
        (timeReset t now).prev_measured_value =
          (if t.measuring then
            t.session_start_measured_value + (now - t.session_start_value)
          else t.measured_value)) := by
  refine ⟨fun c => ⟨rfl, rfl⟩, fun s => ⟨?_, ?_⟩, fun t now => ?_⟩
  · intro h
    simp [sourceReset, h]
  · intro sv ssv hm hsv hssv hsync
    simp [sourceReset, sourceStop, sourceStart, hm, hsv, hssv]
    exact hsync.symm
  · cases h : t.measuring <;> simp [timeReset, timeStop, timeStart, h]

/-- Witness for `reset_conservation` at concrete states (an idle and a
measuring `SourceMeter`, the latter in sync: `10 = 4 + (9 - 3)`). -/
theorem reset_conservation_witness :
    ((sourceReset ⟨5, 2, false, some 3, 4, some 9⟩).ok = true ∧
      (sourceReset ⟨5, 2, false, some 3, 4, some 9⟩).state.prev_measured_value = 5 ∧
      (sourceReset ⟨5, 2, false, some 3, 4, some 9⟩).state.measured_value = 0) ∧
    ((sourceReset ⟨10, 2, true, some 3, 4, some 9⟩).ok = true ∧
      (sourceReset ⟨10, 2, true, some 3, 4, some 9⟩).state.prev_measured_value = 10 ∧
      (sourceReset ⟨10, 2, true, some 3, 4, some 9⟩).state.measured_value = 0) := by
  exact ⟨(reset_conservation.2.1 ⟨5, 2, false, some 3, 4, some 9⟩).1 rfl,
    (reset_conservation.2.1 ⟨10, 2, true, some 3, 4, some 9⟩).2 9 3 rfl rfl rfl
      (by norm_num)⟩

/-- C7: the delta-continuity scenario.  A `SourceMeter` constructed with
reading 100: `start()`, `update(110)` gives `measured_value == 10`;
`stop()`, then `update(150)` while idle leaves it at 10; `start()`
re-anchors at 150 and `update(170)` gives `measured_value == 30`. -/
theorem sourceMeter_delta_scenario :
    deltaAfterFirstUpdate.measured_value = 10 ∧
    deltaAfterIdleUpdate.measured_value = 10 ∧
    deltaAfterSecondSession.measured_value = 30 := by
  norm_num [deltaAfterFirstUpdate, deltaAfterIdleUpdate, deltaAfterSecondSession,
    sourceInit, sourceStart, sourceStop, sourceUpdate]

/-- C8: `update` with an absent value on a measuring `CounterMeter` or
`SourceMeter` raises (`ok = false`) and leaves `measured_value` and
`prev_measured_value` exactly as they were before the call. -/
theorem update_absent_fails :
    (∀ c : CounterState, c.measuring = true →
        (counterUpdate c none).ok = false ∧
        (counterUpdate c none).state.measured_value = c.measured_value ∧
        (counterUpdate c none).state.prev_measured_value = c.prev_measured_value) ∧
    (∀ s : SourceState, s.measuring = true →
        (sourceUpdate s none).ok = false ∧
        (sourceUpdate s none).state.measured_value = s.measured_value ∧
        (sourceUpdate s none).state.prev_measured_value = s.prev_measured_value) := by
  constructor
  · intro c h
    simp [counterUpdate, h]
  · intro s h
    cases h2 : s.session_start_value <;> simp [sourceUpdate, h, h2]

/-- Witness for `update_absent_fails` at concrete measuring meters. -/
theorem update_absent_fails_witness :
    ((counterUpdate ⟨5, 2, true⟩ none).ok = false ∧
      (counterUpdate ⟨5, 2, true⟩ none).state.measured_value = 5 ∧
      (counterUpdate ⟨5, 2, true⟩ none).state.prev_measured_value = 2) ∧
    ((sourceUpdate ⟨5, 2, true, some 3, 4, some 9⟩ none).ok = false ∧
      (sourceUpdate ⟨5, 2, true, some 3, 4, some 9⟩ none).state.measured_value = 5 ∧
      (sourceUpdate ⟨5, 2, true, some 3, 4, some 9⟩ none).state.prev_measured_value = 2) := by
  exact ⟨update_absent_fails.1 ⟨5, 2, true⟩ rfl,
    update_absent_fails.2 ⟨5, 2, true, some 3, 4, some 9⟩ rfl⟩

/-- C9: `SourceMeter.update(v)` stores `v` as `source_value` first,
unconditionally — also when the call then raises because `v` is absent
while measuring — while an idle call returns normally without recomputing
`measured_value`. -/
theorem sourceUpdate_always_stores :
    ∀ (s : SourceState) (v : Option ℚ),
      (sourceUpdate s v).state.source_value = v ∧
      (s.measuring = false →
        (sourceUpdate s v).ok = true ∧
        (sourceUpdate s v).state.measured_value = s.measured_value) ∧
      (s.measuring = true → v = none →
        (sourceUpdate s v).ok = false ∧
        (sourceUpdate s v).state.source_value = v) := by
  intro s v
  cases h : s.measuring <;> cases v <;> cases h2 : s.session_start_value <;>
    simp [sourceUpdate, h, h2]

/-- Witness for `sourceUpdate_always_stores`: an idle update stores the
value and keeps `measured_value`; a measuring update with an absent value
raises yet still overwrites `source_value` with `None`. -/
theorem sourceUpdate_always_stores_witness :
    ((sourceUpdate ⟨5, 2, false, some 3, 4, some 9⟩ (some 7)).state.source_value =
      some 7) ∧
    ((sourceUpdate ⟨5, 2, false, some 3, 4, some 9⟩ (some 7)).ok = true ∧
      (sourceUpdate ⟨5, 2, false, some 3, 4, some 9⟩ (some 7)).state.measured_value = 5) ∧
    ((sourceUpdate ⟨5, 2, true, some 3, 4, some 9⟩ none).ok = false ∧
      (sourceUpdate ⟨5, 2, true, some 3, 4, some 9⟩ none).state.source_value = none) := by
  exact ⟨(sourceUpdate_always_stores ⟨5, 2, false, some 3, 4, some 9⟩ (some 7)).1,
    (sourceUpdate_always_stores ⟨5, 2, false, some 3, 4, some 9⟩ (some 7)).2.1 rfl,
    (sourceUpdate_always_stores ⟨5, 2, true, some 3, 4, some 9⟩ none).2.2 rfl rfl⟩

/-- A single `CounterMeter` call other than `reset` leaves
`prev_measured_value` unchanged. -/
theorem counterStep_prev (s : CounterState) (op : CounterOp) :
    (counterStep s op).prev_measured_value = s.prev_measured_value := by
  cases op with
  | start => rfl
  | stop => rfl
  | update v =>
      cases h : s.measuring <;> cases v <;> simp [counterStep, counterUpdate, h]

/-- A single `SourceMeter` call other than `reset` leaves
`prev_measured_value` unchanged. -/
theorem sourceStep_prev (s : SourceState) (op : SourceOp) :
    (sourceStep s op).prev_measured_value = s.prev_measured_value := by
  cases op with
  | start => rfl
  | stop =>
      cases h1 : s.source_value <;> cases h2 : s.session_start_value <;>
        simp [sourceStep, sourceStop, h1, h2]
  | update v =>
      cases h : s.measuring <;> cases v <;> cases h2 : s.session_start_value <;>
        simp [sourceStep, sourceUpdate, h, h2]

/-- A single `TimeMeter` call other than `reset` leaves
`prev_measured_value` unchanged. -/
theorem timeStep_prev (s : TimeState) (op : TimeOp) :
    (timeStep s op).prev_measured_value = s.prev_measured_value := by
  cases op with
  | start now => rfl
  | stop now => rfl
  | update now => cases h : s.measuring <;> simp [timeStep, timeUpdate, h]

/-- C10: over any finite sequence of `start`/`stop`/`update` calls (no
`reset`, no restore), `prev_measured_value` never changes, for all three
meter variants; only `reset` and `from_dict` assign it. -/
theorem prev_measured_value_frame :
    (∀ (ops : List CounterOp) (c : CounterState),
        (counterRun c ops).prev_measured_value = c.prev_measured_value) ∧
    (∀ (ops : List SourceOp) (s : SourceState),
        (sourceRun s ops).prev_measured_value = s.prev_measured_value) ∧
    (∀ (ops : List TimeOp) (t : TimeState),
        (timeRun t ops).prev_measured_value = t.prev_measured_value) := by
  refine ⟨fun ops => ?_, fun ops => ?_, fun ops => ?_⟩ <;>
    induction ops with
  | nil => intro x; rfl
  | cons op ops ih =>
      intro x
      simp only [counterRun, sourceRun, timeRun]
      rw [ih]
      first
      | exact counterStep_prev x op
      | exact sourceStep_prev x op
      | exact timeStep_prev x op
